import Mathlib

/-!
Shallow embedding of the Position & Risk Ledger Engine of the
Gemini-Trading-Bot repository, together with theorems settling the
frozen claims about it.

Conventions of the embedding:
* Python floats become exact rationals (ℚ); money and prices are ℚ,
  share quantities are ℤ.
* Python `int(x)` (truncation toward zero) becomes `pyInt`.
* The relational store (tables `trades` and `portfolio`) becomes an
  explicit `DB` value threaded through the operations; a SQL
  `SELECT ... LIMIT 1` becomes `List.find?`, an `UPDATE ... WHERE`
  that the ORM issues through `.first()` updates the first matching
  row (`updateFirst`).
* External reads (live price, VIX volatility factor, wall clock) are
  passed in as explicit parameters.
* The surrogate id handed out by the database's autoincrement column
  is modelled as the number of rows already present.
-/

section PositionRiskLedger

/- Batteries marks the arithmetic on `Rat` `@[irreducible]`; concrete
evaluation of the embedded operations (needed to test the claims on
explicit inputs) requires unfolding it. -/
attribute [local semireducible] Rat.add Rat.sub Rat.mul Rat.inv Rat.ofScientific

/-- Python `int(x)`: truncation toward zero. -/
def pyInt (x : ℚ) : ℤ :=
  if 0 ≤ x then Int.floor x else -(Int.floor (-x))

theorem pyInt_of_nonneg {x : ℚ} (hx : 0 ≤ x) : pyInt x = Int.floor x := by
  simp [pyInt, hx]

theorem pyInt_le {x : ℚ} (hx : 0 ≤ x) : (pyInt x : ℚ) ≤ x := by
  rw [pyInt_of_nonneg hx]
  exact Int.floor_le x

/-! ### Configuration constants (src/config.py, src/risk/calculator.py,
src/portfolio/manager.py) -/

def ACCOUNT_SIZE : ℚ := 100000

def RISK_PER_TRADE : ℚ := 2/100

/-- Source constant `MAX_POSITION_ALLOCATION = 0.2` — max 20% of account in one stock. -/
def MAX_POSITION_ALLOCATION : ℚ := 2/10

/-- Source constant `MIN_PRICE_DIFF_PERCENT = 0.5` — only buy more if price moved 0.5%. -/
def MIN_PRICE_DIFF_PERCENT : ℚ := 5/10

def MAX_SECTOR_EXPOSURE : Nat := 2

def MAX_POSITIONS_PER_STRATEGY : Nat := 5

/-! ### Data model (src/src/database.py) -/

/-- Values of the `trades.status` column that the engine writes. -/
inductive Status where
  | OPEN
  | WATCH
  | TARGET_HIT
  | STOP_HIT
  | CLOSED
deriving DecidableEq, Repr

/-- One row of the `trades` table. -/
structure Trade where
  id : Nat
  ticker : String
  signal : String
  entry_price : ℚ
  target_price : ℚ
  stop_loss : ℚ
  quantity : ℤ
  status : Status
  entry_time : Nat
  exit_time : Option Nat
  pnl : Option ℚ
  reasoning : String
  strategy_name : String
  confidence : ℤ
deriving DecidableEq, Repr

/-- One row of the `portfolio` table: a per-strategy cash wallet. -/
structure Portfolio where
  strategy_name : String
  balance : ℚ
deriving DecidableEq, Repr

/-- The persisted state the core mutates. -/
structure DB where
  trades : List Trade
  wallets : List Portfolio
deriving DecidableEq, Repr

/-! ### Risk Sizer (src/src/risk/calculator.py, `calculate_position_size`)

`get_market_volatility()` is an external VIX read returning a factor in
{1.0, 0.75, 0.5} (1.0 on any failure); it is passed in as the explicit
parameter `volatility_factor`.  The source's `except` path (return 0)
is reachable only through float-conversion / zero-division errors,
which the guard `risk_per_share == 0` and exact ℚ arithmetic exclude
whenever `entry ≠ 0`; the claims only quantify over `entry > 0`. -/

def calculate_position_size (entry stop_loss : ℚ)
    (risk_per_trade : Option ℚ) (volatility_factor : ℚ) : ℤ :=
  let final_risk_pct := risk_per_trade.getD RISK_PER_TRADE
  let risk_per_share := |entry - stop_loss|
  if risk_per_share = 0 then 0
  else
    let risk_budget := ACCOUNT_SIZE * final_risk_pct * volatility_factor
    let qty_by_risk := pyInt (risk_budget / risk_per_share)
    let max_capital_allowed := ACCOUNT_SIZE * MAX_POSITION_ALLOCATION
    let qty_by_capital := pyInt (max_capital_allowed / entry)
    max 1 (min qty_by_risk qty_by_capital)

example : calculate_position_size 1000 950 (some (2/100)) 1 = 20 := by decide

example : calculate_position_size 100 100 none 1 = 0 := by decide

/-! ### List helpers standing for ORM `.first()` / SQL `WHERE ... LIMIT 1`
updates: only the first matching row is rewritten. -/

def updateFirst (p : Trade → Bool) (f : Trade → Trade) : List Trade → List Trade
  | [] => []
  | t :: ts => if p t then f t :: ts else t :: updateFirst p f ts

def updateFirstWallet (p : Portfolio → Bool) (f : Portfolio → Portfolio) :
    List Portfolio → List Portfolio
  | [] => []
  | w :: ws => if p w then f w :: ws else w :: updateFirstWallet p f ws

/-! ### Cash manager and trade table (src/src/database.py) -/

/-- Embedding of `get_current_balance`: balance of the wallet row for the strategy,
`0.0` when no such row exists. -/
def get_current_balance (db : DB) (strategy_name : String) : ℚ :=
  match db.wallets.find? (fun w => w.strategy_name == strategy_name) with
  | some p => p.balance
  | none => 0

/-- Embedding of `update_balance`: add `amount` to the first wallet row of the
strategy; when no row exists nothing happens (the source's
`if p: ... commit` leaves the table untouched).  The source's
`strategy_name` parameter defaults to `"MASTER"`; callers that omit it
are modelled by passing `"MASTER"` explicitly. -/
def update_balance (db : DB) (amount : ℚ) (strategy_name : String) : DB :=
  { db with
    wallets := updateFirstWallet (fun w => w.strategy_name == strategy_name)
      (fun w => { w with balance := w.balance + amount }) db.wallets }

/-- The `data` dict handed to `log_trade` by the executor. -/
structure TradeData where
  ticker : String
  signal : String
  entry_price : ℚ
  target_price : ℚ
  stop_loss : ℚ
  reasoning : String
  strategy_name : String
  confidence : ℤ
deriving DecidableEq, Repr

/-- Embedding of `log_trade`: insert a new OPEN trade row.  The source wraps the
insert in `try/except` and merely prints on a database failure; the
`dbOk` flag models whether the insert commits.  The autoincrement id is
modelled as the current number of rows. -/
def log_trade (dbOk : Bool) (now : Nat) (db : DB) (data : TradeData) (qty : ℤ) : DB :=
  if dbOk then
    { db with
      trades := db.trades ++
        [{ id := db.trades.length
           ticker := data.ticker
           signal := data.signal
           entry_price := data.entry_price
           target_price := data.target_price
           stop_loss := data.stop_loss
           quantity := qty
           status := Status.OPEN
           entry_time := now
           exit_time := none
           pnl := none
           reasoning := data.reasoning
           strategy_name := data.strategy_name
           confidence := data.confidence }] }
  else db

/-- Embedding of `get_open_trades`: all OPEN rows, optionally filtered to one strategy. -/
def get_open_trades (db : DB) (strategy_name : Option String) : List Trade :=
  let base := db.trades.filter (fun t => t.status == Status.OPEN)
  match strategy_name with
  | some s => base.filter (fun t => t.strategy_name == s)
  | none => base

/-- Embedding of `update_trade_status`: the close write.  It looks the row up by
`Trade.id` ONLY — there is no condition on the row still being OPEN —
and sets status, exit time and pnl on whatever row it finds.  As in the
source, the `exit_price` argument is accepted but not stored. -/
def update_trade_status (now : Nat) (db : DB) (trade_id : Nat) (status : Status)
    (exit_price pnl : ℚ) : DB :=
  { db with
    trades := updateFirst (fun t => t.id == trade_id)
      (fun t => { t with status := status, exit_time := some now, pnl := some pnl })
      db.trades }

/-! ### Trade-setup validation (src/src/risk/calculator.py,
`validate_trade_setup`) -/

/-- The SQL filter `ticker = :ticker AND strategy_name = :strat AND
status = 'OPEN'` used by both `validate_trade_setup` and
`place_or_update_trade`. -/
def openRowFor (ticker strategy : String) (t : Trade) : Bool :=
  t.ticker == ticker && t.strategy_name == strategy && t.status == Status.OPEN

/-- The messages `validate_trade_setup` returns, one constructor per
return site of the source. -/
inductive Msg where
  | freshEntry
  | priceNoise (diff_pct : ℚ)
  | maxAllocationReached (invested : ℚ)
  | cappedQuantity (requested adjusted : ℤ)
  | noBudgetLeft
  | averagingOk (diff_pct : ℚ)
deriving DecidableEq, Repr

def validate_trade_setup (db : DB) (strategy ticker : String)
    (signal_price : ℚ) (signal_qty : ℤ) : Bool × ℤ × Msg :=
  match db.trades.find? (openRowFor ticker strategy) with
  | none => (true, signal_qty, Msg.freshEntry)
  | some existing =>
    let current_qty := existing.quantity
    let last_entry := existing.entry_price
    let price_diff_pct := |(signal_price - last_entry) / last_entry| * 100
    if price_diff_pct < MIN_PRICE_DIFF_PERCENT then
      (false, 0, Msg.priceNoise price_diff_pct)
    else
      let current_invested := (current_qty : ℚ) * last_entry
      let new_invested := (signal_qty : ℚ) * signal_price
      let total_projected := current_invested + new_invested
      let max_allowed_rupees := ACCOUNT_SIZE * MAX_POSITION_ALLOCATION
      if current_invested ≥ max_allowed_rupees then
        (false, 0, Msg.maxAllocationReached current_invested)
      else if total_projected > max_allowed_rupees then
        let remaining_budget := max_allowed_rupees - current_invested
        let adjusted_qty := pyInt (remaining_budget / signal_price)
        if adjusted_qty > 0 then
          (true, adjusted_qty, Msg.cappedQuantity signal_qty adjusted_qty)
        else
          (false, 0, Msg.noBudgetLeft)
      else
        (true, signal_qty, Msg.averagingOk price_diff_pct)

/-- Wrapper pairing `validate_trade_setup` with the store it leaves behind: the source
only ever SELECTs through its connection, so the store after the call
is the store before it. -/
def validate_trade_setup_db (db : DB) (strategy ticker : String)
    (signal_price : ℚ) (signal_qty : ℤ) : (Bool × ℤ × Msg) × DB :=
  (validate_trade_setup db strategy ticker signal_price signal_qty, db)

/-! ### Trade Ledger open-or-average (src/src/db_helper.py,
`place_or_update_trade`) -/

def place_or_update_trade (now : Nat) (db : DB) (strategy_name ticker : String)
    (signal_qty : ℤ) (signal_price target stoploss : ℚ) : DB :=
  match db.trades.find? (openRowFor ticker strategy_name) with
  | some existing =>
    let old_qty := existing.quantity
    let old_price := existing.entry_price
    let total_cost_old := (old_qty : ℚ) * old_price
    let total_cost_new := (signal_qty : ℚ) * signal_price
    let new_total_qty := old_qty + signal_qty
    let new_avg_price :=
      if new_total_qty > 0 then (total_cost_old + total_cost_new) / (new_total_qty : ℚ)
      else signal_price
    { db with
      trades := updateFirst (fun t => t.id == existing.id)
        (fun t => { t with
          quantity := new_total_qty
          entry_price := new_avg_price
          target_price := target
          stop_loss := stoploss }) db.trades }
  | none =>
    { db with
      trades := db.trades ++
        [{ id := db.trades.length
           ticker := ticker
           signal := "BUY"
           entry_price := signal_price
           target_price := target
           stop_loss := stoploss
           quantity := signal_qty
           status := Status.OPEN
           entry_time := now
           exit_time := none
           pnl := none
           reasoning := ""
           strategy_name := strategy_name
           confidence := 0 }] }

/-! ### Portfolio Admission Gate (src/src/portfolio/manager.py,
`check_portfolio_health`).  `get_sector` is an external Yahoo lookup
returning `"Unknown"` on any failure; it is passed in as `sector_of`. -/

def check_portfolio_health (db : DB) (sector_of : String → String)
    (new_candidate strategy_name : String) : Bool × String :=
  let open_trades := get_open_trades db (some strategy_name)
  if open_trades.length ≥ MAX_POSITIONS_PER_STRATEGY then
    (false, "Strategy " ++ strategy_name ++ " is Full (" ++
      toString open_trades.length ++ "/" ++ toString MAX_POSITIONS_PER_STRATEGY ++ ")")
  else if open_trades.any (fun t => t.ticker == new_candidate) then
    (false, strategy_name ++ " already holds " ++ new_candidate)
  else
    let candidate_sector := sector_of new_candidate
    if candidate_sector == "Unknown" then
      (true, "OK (Sector Unknown)")
    else
      let same_sector_count :=
        (open_trades.filter (fun t => sector_of t.ticker == candidate_sector)).length
      if same_sector_count ≥ MAX_SECTOR_EXPOSURE then
        (false, "Max " ++ candidate_sector ++ " exposure reached for " ++ strategy_name)
      else
        (true, "OK")

/-! ### Exit Monitor (src/monitor.py, `run_watchdog`) -/

/-- The exit check of the watchdog loop: target comparison first, stop
comparison only otherwise. -/
def exit_decision (current_price target_price stop_loss : ℚ) : Option Status :=
  if current_price ≥ target_price then some Status.TARGET_HIT
  else if current_price ≤ stop_loss then some Status.STOP_HIT
  else none

/-- One iteration of the watchdog loop for trade `t`.  `current_price =
none` covers both a missing instrument key and an unavailable live
price (the loop `continue`s).  On a trigger the source credits
`update_balance(cash_back)` — with the DEFAULT strategy `"MASTER"`, not
the trade's own strategy — and then calls `update_trade_status`. -/
def watchdog_step (now : Nat) (db : DB) (t : Trade) (current_price : Option ℚ) : DB :=
  match current_price with
  | none => db
  | some cp =>
    match exit_decision cp t.target_price t.stop_loss with
    | none => db
    | some new_status =>
      let pnl := (cp - t.entry_price) * (t.quantity : ℚ)
      let cash_back := cp * (t.quantity : ℚ)
      let db1 := update_balance db cash_back "MASTER"
      update_trade_status now db1 t.id new_status cp pnl

/-- The full scan: the list of OPEN trades is fetched once up front and
each is processed in order. -/
def run_watchdog (now : Nat) (price_of : Trade → Option ℚ) (db : DB) : DB :=
  (get_open_trades db none).foldl (fun acc t => watchdog_step now acc t (price_of t)) db

/-! ### Executor open path (src/src/bot/executor.py, `execute_trade`) -/

def execute_trade (now : Nat) (volatility_factor : ℚ) (dbOk : Bool) (db : DB)
    (ticker strategy_name signal : String) (price atr : ℚ)
    (decision_reason : String) (confidence : ℤ) : DB × ℤ :=
  let stop_loss := price - 2 * atr
  let target_price := price + 4 * atr
  let qty0 := calculate_position_size price stop_loss (some (2/100)) volatility_factor
  let balance := get_current_balance db strategy_name
  let cost0 := (qty0 : ℚ) * price
  let qty_cost : ℤ × ℚ :=
    if cost0 > balance then
      if balance > 0 ∧ price > 0 then
        let q := pyInt (balance * (99/100) / price)
        (q, (q : ℚ) * price)
      else (0, cost0)
    else (qty0, cost0)
  let qty := qty_cost.1
  let cost := qty_cost.2
  if qty > 0 then
    let db1 := update_balance db (-cost) strategy_name
    let data : TradeData :=
      { ticker := ticker
        signal := signal
        entry_price := price
        target_price := target_price
        stop_loss := stop_loss
        reasoning := decision_reason
        strategy_name := strategy_name
        confidence := confidence }
    let db2 := log_trade dbOk now db1 data qty
    (db2, qty)
  else
    (db, 0)

/-! ### Derived measures and the seeded store (src/src/database.py,
`init_db`) -/

def total_wallet_balance (db : DB) : ℚ :=
  (db.wallets.map Portfolio.balance).sum

def open_cost_basis (db : DB) : ℚ :=
  ((db.trades.filter (fun t => t.status == Status.OPEN)).map
    (fun t => (t.quantity : ℚ) * t.entry_price)).sum

/-- Seeding of `init_db`: exactly the three strategy wallets with ₹1 Lakh
each; there is no `"MASTER"` row. -/
def seededDB : DB :=
  { trades := []
    wallets :=
      [ { strategy_name := "STRATEGY_MOMENTUM", balance := 100000 }
      , { strategy_name := "STRATEGY_MEAN_REVERSION", balance := 100000 }
      , { strategy_name := "STRATEGY_AI_SNIPER", balance := 100000 } ] }

/-! ## Claim C1 — risk sizer result and bounds

The claim says the sizer returns `min(qty_by_risk, qty_by_capital)`
floored at 0 and that the returned quantity always respects the risk
budget and the capital ceiling.  The source floors at 1 instead
(`max(1, min(...))`), so when the min is 0 the sizer still returns one
share and can breach both bounds. -/

/-- Claim C1 counterexample: at `entry = 30000 > stop = 29000 > 0`
(risk 2%, volatility factor 1.0) the code returns 1 share even though
`min(qty_by_risk, qty_by_capital) = 0`, and that one share costs 30000,
breaching the capital ceiling `ACCOUNT_SIZE × MAX_POSITION_ALLOCATION =
20000`. -/
theorem C1_counterexample :
    (30000:ℚ) > 29000 ∧ (29000:ℚ) > 0 ∧
    calculate_position_size 30000 29000 (some (2/100)) 1 = 1 ∧
    max 0 (min (pyInt (ACCOUNT_SIZE * (2/100) * 1 / |(30000:ℚ) - 29000|))
               (pyInt (ACCOUNT_SIZE * MAX_POSITION_ALLOCATION / 30000))) = 0 ∧
    ¬ ((calculate_position_size 30000 29000 (some (2/100)) 1 : ℚ) * 30000
        ≤ ACCOUNT_SIZE * MAX_POSITION_ALLOCATION) := by
  decide

/-- Claim C1, amended: for entry > stop > 0 the sizer returns
`max(1, min(qty_by_risk, qty_by_capital))` — floored at 1, not 0 — and
whenever that min is at least 1 (so the forced single share does not
kick in) the returned quantity respects both the risk budget
(`quantity × |entry−stop| ≤ account_size × risk_fraction × 1.0`) and the
capital ceiling (`quantity × entry ≤ account_size ×
max_allocation_ratio`). -/
theorem C1_amended_risk_sizer (entry stop_loss risk vol : ℚ)
    (hstop : 0 < stop_loss) (hes : stop_loss < entry)
    (hrisk : 0 ≤ risk) (hv0 : 0 ≤ vol) (hv1 : vol ≤ 1) :
    calculate_position_size entry stop_loss (some risk) vol =
      max 1 (min (pyInt (ACCOUNT_SIZE * risk * vol / (entry - stop_loss)))
                 (pyInt (ACCOUNT_SIZE * MAX_POSITION_ALLOCATION / entry))) ∧
    (1 ≤ min (pyInt (ACCOUNT_SIZE * risk * vol / (entry - stop_loss)))
             (pyInt (ACCOUNT_SIZE * MAX_POSITION_ALLOCATION / entry)) →
      (calculate_position_size entry stop_loss (some risk) vol : ℚ) * (entry - stop_loss)
          ≤ ACCOUNT_SIZE * risk * 1 ∧
      (calculate_position_size entry stop_loss (some risk) vol : ℚ) * entry
          ≤ ACCOUNT_SIZE * MAX_POSITION_ALLOCATION) := by
  have hsub : (0:ℚ) < entry - stop_loss := sub_pos.mpr hes
  have hentry : (0:ℚ) < entry := hstop.trans hes
  have habs : |entry - stop_loss| = entry - stop_loss := abs_of_pos hsub
  have hA : (0:ℚ) ≤ ACCOUNT_SIZE := by norm_num [ACCOUNT_SIZE]
  have hbudget : (0:ℚ) ≤ ACCOUNT_SIZE * risk * vol :=
    mul_nonneg (mul_nonneg hA hrisk) hv0
  have hcap : (0:ℚ) ≤ ACCOUNT_SIZE * MAX_POSITION_ALLOCATION := by
    norm_num [ACCOUNT_SIZE, MAX_POSITION_ALLOCATION]
  have heq : calculate_position_size entry stop_loss (some risk) vol =
      max 1 (min (pyInt (ACCOUNT_SIZE * risk * vol / (entry - stop_loss)))
                 (pyInt (ACCOUNT_SIZE * MAX_POSITION_ALLOCATION / entry))) := by
    unfold calculate_position_size
    rw [habs, if_neg (ne_of_gt hsub)]
    rfl
  refine ⟨heq, fun hmin => ?_⟩
  set a := pyInt (ACCOUNT_SIZE * risk * vol / (entry - stop_loss)) with ha
  set b := pyInt (ACCOUNT_SIZE * MAX_POSITION_ALLOCATION / entry) with hb
  have hres : calculate_position_size entry stop_loss (some risk) vol = min a b := by
    rw [heq, max_eq_right hmin]
  have hale : (a : ℚ) ≤ ACCOUNT_SIZE * risk * vol / (entry - stop_loss) := by
    rw [ha]; exact pyInt_le (div_nonneg hbudget hsub.le)
  have hble : (b : ℚ) ≤ ACCOUNT_SIZE * MAX_POSITION_ALLOCATION / entry := by
    rw [hb]; exact pyInt_le (div_nonneg hcap hentry.le)
  constructor
  · have h1 : ((min a b : ℤ) : ℚ) ≤ (a : ℚ) := Int.cast_le.mpr (min_le_left a b)
    have h2 : ((min a b : ℤ) : ℚ) * (entry - stop_loss)
        ≤ (ACCOUNT_SIZE * risk * vol / (entry - stop_loss)) * (entry - stop_loss) :=
      mul_le_mul_of_nonneg_right (h1.trans hale) hsub.le
    rw [div_mul_cancel₀ _ (ne_of_gt hsub)] at h2
    have h3 : ACCOUNT_SIZE * risk * vol ≤ ACCOUNT_SIZE * risk * 1 :=
      mul_le_mul_of_nonneg_left hv1 (mul_nonneg hA hrisk)
    rw [hres]
    exact h2.trans h3
  · have h1 : ((min a b : ℤ) : ℚ) ≤ (b : ℚ) := Int.cast_le.mpr (min_le_right a b)
    have h2 : ((min a b : ℤ) : ℚ) * entry
        ≤ (ACCOUNT_SIZE * MAX_POSITION_ALLOCATION / entry) * entry :=
      mul_le_mul_of_nonneg_right (h1.trans hble) hentry.le
    rw [div_mul_cancel₀ _ (ne_of_gt hentry)] at h2
    rw [hres]
    exact h2

/-- Claim C1 witness: the amended theorem applied at
`entry = 100, stop = 90, risk = 2%, volatility factor 1`, where the min
is 200 ≥ 1 and both bounds hold. -/
theorem C1_amended_risk_sizer_witness :
    (0:ℚ) < 90 ∧ (90:ℚ) < 100 ∧
    (calculate_position_size 100 90 (some (2/100)) 1 : ℚ) * (100 - 90)
      ≤ ACCOUNT_SIZE * (2/100) * 1 ∧
    (calculate_position_size 100 90 (some (2/100)) 1 : ℚ) * 100
      ≤ ACCOUNT_SIZE * MAX_POSITION_ALLOCATION := by
  have h := C1_amended_risk_sizer 100 90 (2/100) 1 (by decide) (by decide)
    (by decide) (by decide) (by decide)
  have h2 := h.2 (by decide)
  exact ⟨by decide, by decide, h2.1, h2.2⟩

/-! ## Shared lemma: updating the first row matching an id -/

theorem find?_updateFirst_id (l : List Trade) (ex : Trade) (f : Trade → Trade)
    (hid : (f ex).id = ex.id)
    (h : l.find? (fun t => t.id == ex.id) = some ex) :
    (updateFirst (fun t => t.id == ex.id) f l).find? (fun t => t.id == ex.id) =
      some (f ex) := by
  induction l with
  | nil => simp [List.find?] at h
  | cons t ts ih =>
    by_cases hd : t.id == ex.id
    · have ht : t = ex := by
        rw [List.find?_cons, hd] at h
        exact Option.some.inj h
      subst ht
      rw [updateFirst, if_pos hd, List.find?_cons]
      have : ((f t).id == t.id) = true := by
        rw [hid]
        exact beq_self_eq_true _
      rw [this]
    · rw [List.find?_cons] at h
      rw [Bool.of_not_eq_true hd] at h
      rw [updateFirst, if_neg hd, List.find?_cons]
      rw [Bool.of_not_eq_true hd]
      exact ih h

/-! ## Shared concrete fixtures -/

/-- An existing OPEN position: 150 shares of TCS at ₹100 under the
momentum strategy (invested ₹15,000, under the ₹20,000 ceiling). -/
def openTrade100 : Trade :=
  { id := 1
    ticker := "TCS"
    signal := "BUY"
    entry_price := 100
    target_price := 120
    stop_loss := 90
    quantity := 150
    status := Status.OPEN
    entry_time := 0
    exit_time := none
    pnl := none
    reasoning := ""
    strategy_name := "STRATEGY_MOMENTUM"
    confidence := 0 }

def dbOpen100 : DB := { trades := [openTrade100], wallets := [] }

/-! ## Claim C10 — fresh first entry passes through untouched -/

/-- Claim C10: when no OPEN trade exists for the (ticker, strategy)
pair, `validate_trade_setup` returns `allowed = true` with the full
requested quantity and the "Fresh Entry" message, and the store is left
unchanged; neither the price-noise guard nor the allocation ceiling is
applied. -/
theorem C10_fresh_entry_passthrough (db : DB) (strategy ticker : String)
    (signal_price : ℚ) (signal_qty : ℤ)
    (h : db.trades.find? (openRowFor ticker strategy) = none) :
    validate_trade_setup_db db strategy ticker signal_price signal_qty =
      ((true, signal_qty, Msg.freshEntry), db) := by
  unfold validate_trade_setup_db validate_trade_setup
  rw [h]

/-- Claim C10 witness: on the freshly seeded store (no trades at all) a
10-share signal at ₹100 is passed through in full. -/
theorem C10_fresh_entry_witness :
    seededDB.trades.find? (openRowFor "TCS" "STRATEGY_MOMENTUM") = none ∧
    validate_trade_setup_db seededDB "STRATEGY_MOMENTUM" "TCS" 100 10 =
      ((true, 10, Msg.freshEntry), seededDB) :=
  ⟨rfl, C10_fresh_entry_passthrough seededDB "STRATEGY_MOMENTUM" "TCS" 100 10 rfl⟩

/-! ## Claim C7 — price-noise guard -/

/-- Claim C7: when an OPEN trade exists for the pair and the signal
price is within `MIN_PRICE_DIFF_PERCENT` (0.5%) of the recorded entry —
`|q − p| / p × 100` below the threshold — validation rejects with
`allowed = false`, quantity 0 and the "price noise" message, and the
stored trade is left unchanged (the call performs no write). -/
theorem C7_price_noise_guard (db : DB) (strategy ticker : String)
    (signal_price : ℚ) (signal_qty : ℤ) (ex : Trade)
    (hfind : db.trades.find? (openRowFor ticker strategy) = some ex)
    (hpos : 0 < ex.entry_price)
    (hnoise : |signal_price - ex.entry_price| / ex.entry_price * 100
      < MIN_PRICE_DIFF_PERCENT) :
    validate_trade_setup_db db strategy ticker signal_price signal_qty =
      ((false, 0,
        Msg.priceNoise (|signal_price - ex.entry_price| / ex.entry_price * 100)), db) := by
  have habs : |(signal_price - ex.entry_price) / ex.entry_price| =
      |signal_price - ex.entry_price| / ex.entry_price := by
    rw [abs_div, abs_of_pos hpos]
  unfold validate_trade_setup_db validate_trade_setup
  rw [hfind]
  simp only [habs, if_pos hnoise]

/-- Claim C7 witness: averaging at ₹100.20 onto an entry of ₹100
(difference 0.2% < 0.5%) is rejected as price noise and the store is
untouched. -/
theorem C7_price_noise_witness :
    dbOpen100.trades.find? (openRowFor "TCS" "STRATEGY_MOMENTUM") = some openTrade100 ∧
    |(1002/10 : ℚ) - openTrade100.entry_price| / openTrade100.entry_price * 100
      < MIN_PRICE_DIFF_PERCENT ∧
    validate_trade_setup_db dbOpen100 "STRATEGY_MOMENTUM" "TCS" (1002/10) 100 =
      ((false, 0,
        Msg.priceNoise
          (|(1002/10 : ℚ) - openTrade100.entry_price| / openTrade100.entry_price * 100)),
       dbOpen100) := by
  refine ⟨by decide, by decide, ?_⟩
  exact C7_price_noise_guard dbOpen100 "STRATEGY_MOMENTUM" "TCS" (1002/10) 100
    openTrade100 (by decide) (by decide) (by decide)

/-! ## Claim C6 — allocation cap on the averaging path

As stated the claim is false: the price-noise guard runs BEFORE the
allocation logic, so a signal within 0.5% of the last entry is rejected
as noise even when the position is under the ceiling, the full add
would exceed it, and a positive partial quantity would fit the
remaining budget.  With the extra hypothesis that the signal clears the
noise guard, the allocation-cap behaviour is exactly as claimed. -/

/-- Claim C6 counterexample: position 150 @ 100 (invested 15,000 <
20,000 ceiling), signal 100 shares @ 100.20.  The claim's conditions
for admitting a partial quantity hold — under the ceiling, full add
projects to 25,020 > 20,000, and floor(remaining/price) = 49 > 0 — yet
validation rejects the add entirely (price noise), admitting nothing. -/
theorem C6_counterexample :
    (openTrade100.quantity : ℚ) * openTrade100.entry_price
      < ACCOUNT_SIZE * MAX_POSITION_ALLOCATION ∧
    (openTrade100.quantity : ℚ) * openTrade100.entry_price + (100 : ℚ) * (1002/10)
      > ACCOUNT_SIZE * MAX_POSITION_ALLOCATION ∧
    0 < pyInt ((ACCOUNT_SIZE * MAX_POSITION_ALLOCATION
        - (openTrade100.quantity : ℚ) * openTrade100.entry_price) / (1002/10)) ∧
    validate_trade_setup dbOpen100 "STRATEGY_MOMENTUM" "TCS" (1002/10) 100 =
      (false, 0, Msg.priceNoise (1/5)) := by
  decide

/-- Claim C6, amended: PROVIDED the signal clears the price-noise guard,
the allocation cap behaves as the claim says: a position already at or
over the ceiling rejects the add entirely; a position under the ceiling
whose full add would exceed it admits exactly
`floor((ceiling − invested) / signal_price)` when that floor is
positive — and the admitted quantity never pushes the invested value
above the ceiling — and rejects with the no-budget message when the
floor is 0. -/
theorem C6_amended_allocation_cap (db : DB) (strategy ticker : String)
    (signal_price : ℚ) (signal_qty : ℤ) (ex : Trade)
    (hfind : db.trades.find? (openRowFor ticker strategy) = some ex)
    (hq : 0 < signal_price)
    (hnoise : ¬ (|(signal_price - ex.entry_price) / ex.entry_price| * 100
      < MIN_PRICE_DIFF_PERCENT)) :
    ((ex.quantity : ℚ) * ex.entry_price ≥ ACCOUNT_SIZE * MAX_POSITION_ALLOCATION →
      validate_trade_setup db strategy ticker signal_price signal_qty =
        (false, 0, Msg.maxAllocationReached ((ex.quantity : ℚ) * ex.entry_price))) ∧
    (¬ ((ex.quantity : ℚ) * ex.entry_price ≥ ACCOUNT_SIZE * MAX_POSITION_ALLOCATION) →
      (ex.quantity : ℚ) * ex.entry_price + (signal_qty : ℚ) * signal_price
        > ACCOUNT_SIZE * MAX_POSITION_ALLOCATION →
      (0 < pyInt ((ACCOUNT_SIZE * MAX_POSITION_ALLOCATION
            - (ex.quantity : ℚ) * ex.entry_price) / signal_price) →
        validate_trade_setup db strategy ticker signal_price signal_qty =
          (true,
           pyInt ((ACCOUNT_SIZE * MAX_POSITION_ALLOCATION
             - (ex.quantity : ℚ) * ex.entry_price) / signal_price),
           Msg.cappedQuantity signal_qty
             (pyInt ((ACCOUNT_SIZE * MAX_POSITION_ALLOCATION
               - (ex.quantity : ℚ) * ex.entry_price) / signal_price))) ∧
        (ex.quantity : ℚ) * ex.entry_price +
          (pyInt ((ACCOUNT_SIZE * MAX_POSITION_ALLOCATION
            - (ex.quantity : ℚ) * ex.entry_price) / signal_price) : ℚ) * signal_price
          ≤ ACCOUNT_SIZE * MAX_POSITION_ALLOCATION) ∧
      (pyInt ((ACCOUNT_SIZE * MAX_POSITION_ALLOCATION
          - (ex.quantity : ℚ) * ex.entry_price) / signal_price) ≤ 0 →
        validate_trade_setup db strategy ticker signal_price signal_qty =
          (false, 0, Msg.noBudgetLeft))) := by
  constructor
  · intro hover
    unfold validate_trade_setup
    rw [hfind]
    simp only [if_neg hnoise, if_pos hover]
  · intro hunder hproj
    have hrem : (0:ℚ) < ACCOUNT_SIZE * MAX_POSITION_ALLOCATION
        - (ex.quantity : ℚ) * ex.entry_price := by
      have := lt_of_not_ge hunder
      linarith
    constructor
    · intro hadj
      constructor
      · unfold validate_trade_setup
        rw [hfind]
        simp only [if_neg hnoise, if_neg (not_le.mpr (lt_of_not_ge hunder)),
          if_pos hproj, if_pos hadj]
      · have hdivnn : (0:ℚ) ≤ (ACCOUNT_SIZE * MAX_POSITION_ALLOCATION
            - (ex.quantity : ℚ) * ex.entry_price) / signal_price :=
          div_nonneg hrem.le hq.le
        have hle : (pyInt ((ACCOUNT_SIZE * MAX_POSITION_ALLOCATION
            - (ex.quantity : ℚ) * ex.entry_price) / signal_price) : ℚ)
            ≤ (ACCOUNT_SIZE * MAX_POSITION_ALLOCATION
              - (ex.quantity : ℚ) * ex.entry_price) / signal_price :=
          pyInt_le hdivnn
        have hmul : (pyInt ((ACCOUNT_SIZE * MAX_POSITION_ALLOCATION
            - (ex.quantity : ℚ) * ex.entry_price) / signal_price) : ℚ) * signal_price
            ≤ ACCOUNT_SIZE * MAX_POSITION_ALLOCATION
              - (ex.quantity : ℚ) * ex.entry_price := by
          have := mul_le_mul_of_nonneg_right hle hq.le
          rwa [div_mul_cancel₀ _ (ne_of_gt hq)] at this
        linarith
    · intro hadj
      unfold validate_trade_setup
      rw [hfind]
      simp only [if_neg hnoise, if_neg (not_le.mpr (lt_of_not_ge hunder)),
        if_pos hproj, if_neg (not_lt.mpr hadj)]

/-- Claim C6 witness: the amended theorem at position 150 @ 100 and a
clean 10%-away signal of 100 shares @ 110: the partial quantity 45 is
admitted and 15,000 + 45×110 = 19,950 stays under the 20,000 ceiling. -/
theorem C6_allocation_cap_witness :
    validate_trade_setup dbOpen100 "STRATEGY_MOMENTUM" "TCS" 110 100 =
      (true, 45, Msg.cappedQuantity 100 45) ∧
    (openTrade100.quantity : ℚ) * openTrade100.entry_price + (45 : ℚ) * 110
      ≤ ACCOUNT_SIZE * MAX_POSITION_ALLOCATION := by
  have h := C6_amended_allocation_cap dbOpen100 "STRATEGY_MOMENTUM" "TCS" 110 100
    openTrade100 (by decide) (by decide) (by decide)
  have h2 := (h.2 (by decide) (by decide)).1 (by decide)
  have hpy : pyInt ((ACCOUNT_SIZE * MAX_POSITION_ALLOCATION
      - (openTrade100.quantity : ℚ) * openTrade100.entry_price) / 110) = 45 := by decide
  constructor
  · rw [h2.1, hpy]
  · have := h2.2
    rw [hpy] at this
    exact this

/-! ## Claim C5 — volume-weighted-average merge -/

/-- Claim C5: for an existing OPEN trade of `old_qty` shares at
`old_price` and an averaging signal of `signal_qty` shares at
`signal_price` with new target/stop levels, `place_or_update_trade`
sets the row's quantity to `old_qty + signal_qty`, its entry price to
`(old_qty×old_price + signal_qty×signal_price) / (old_qty+signal_qty)`,
and its target/stop to the newly supplied values.  The hypothesis
`hfirst` says the found row is the first row carrying its id (ids are
unique in the table). -/
theorem C5_weighted_average_merge (now : Nat) (db : DB) (strategy ticker : String)
    (signal_qty : ℤ) (signal_price target stoploss : ℚ) (ex : Trade)
    (hfind : db.trades.find? (openRowFor ticker strategy) = some ex)
    (hfirst : db.trades.find? (fun t => t.id == ex.id) = some ex)
    (hq : 0 < ex.quantity + signal_qty) :
    (place_or_update_trade now db strategy ticker signal_qty signal_price
        target stoploss).trades.find? (fun t => t.id == ex.id) =
      some { ex with
        quantity := ex.quantity + signal_qty
        entry_price := ((ex.quantity : ℚ) * ex.entry_price
            + (signal_qty : ℚ) * signal_price) / ((ex.quantity + signal_qty : ℤ) : ℚ)
        target_price := target
        stop_loss := stoploss } := by
  unfold place_or_update_trade
  rw [hfind]
  simp only [if_pos hq]
  exact find?_updateFirst_id db.trades ex _ rfl hfirst

/-- Claim C5 witness: opening 10 shares @ 100 and then averaging 10
shares @ 110 (new levels 130/95) yields quantity 20 and entry price
105, with the new target/stop taken verbatim. -/
theorem C5_weighted_average_witness :
    (place_or_update_trade 1
        (place_or_update_trade 0 (DB.mk [] []) "STRATEGY_MOMENTUM" "TCS" 10 100 120 90)
        "STRATEGY_MOMENTUM" "TCS" 10 110 130 95).trades.find? (fun t => t.id == 0) =
      some { id := 0, ticker := "TCS", signal := "BUY", entry_price := 105,
             target_price := 130, stop_loss := 95, quantity := 20,
             status := Status.OPEN, entry_time := 0, exit_time := none, pnl := none,
             reasoning := "", strategy_name := "STRATEGY_MOMENTUM", confidence := 0 } := by
  have h := C5_weighted_average_merge 1
    (place_or_update_trade 0 (DB.mk [] []) "STRATEGY_MOMENTUM" "TCS" 10 100 120 90)
    "STRATEGY_MOMENTUM" "TCS" 10 110 130 95
    { id := 0, ticker := "TCS", signal := "BUY", entry_price := 100,
      target_price := 120, stop_loss := 90, quantity := 10, status := Status.OPEN,
      entry_time := 0, exit_time := none, pnl := none, reasoning := "",
      strategy_name := "STRATEGY_MOMENTUM", confidence := 0 }
    (by decide) (by decide) (by decide)
  rw [h]
  decide

/-! ## Claim C9 — capacity rule is evaluated first -/

/-- Claim C9: a strategy whose OPEN-trade count is at least
`MAX_POSITIONS_PER_STRATEGY` has every new candidate rejected with
`allowed = false` and a populated reason, for EVERY sector lookup and
every candidate — the capacity check runs before the duplication and
sector checks and its failure wins. -/
theorem C9_capacity_rejects_first (db : DB) (sector_of : String → String)
    (new_candidate strategy_name : String)
    (h : (get_open_trades db (some strategy_name)).length ≥ MAX_POSITIONS_PER_STRATEGY) :
    check_portfolio_health db sector_of new_candidate strategy_name =
      (false, "Strategy " ++ strategy_name ++ " is Full (" ++
        toString (get_open_trades db (some strategy_name)).length ++ "/" ++
        toString MAX_POSITIONS_PER_STRATEGY ++ ")") ∧
    (check_portfolio_health db sector_of new_candidate strategy_name).2 ≠ "" := by
  have heq : check_portfolio_health db sector_of new_candidate strategy_name =
      (false, "Strategy " ++ strategy_name ++ " is Full (" ++
        toString (get_open_trades db (some strategy_name)).length ++ "/" ++
        toString MAX_POSITIONS_PER_STRATEGY ++ ")") := by
    unfold check_portfolio_health
    rw [if_pos h]
  refine ⟨heq, ?_⟩
  rw [heq]
  intro hcontra
  have hlen := congrArg String.length hcontra
  simp only [String.length_append] at hlen
  have h9 : ("Strategy " : String).length = 9 := by decide
  have h0 : ("" : String).length = 0 := by decide
  rw [h9, h0] at hlen
  omega

/-- Claim C9 witness: a strategy holding 5 OPEN trades (the maximum)
rejects a fresh candidate in a brand-new sector. -/
theorem C9_capacity_witness :
    (get_open_trades
        { trades :=
            [ { openTrade100 with id := 1, ticker := "A" }
            , { openTrade100 with id := 2, ticker := "B" }
            , { openTrade100 with id := 3, ticker := "C" }
            , { openTrade100 with id := 4, ticker := "D" }
            , { openTrade100 with id := 5, ticker := "E" } ]
          wallets := [] } (some "STRATEGY_MOMENTUM")).length
      ≥ MAX_POSITIONS_PER_STRATEGY ∧
    check_portfolio_health
        { trades :=
            [ { openTrade100 with id := 1, ticker := "A" }
            , { openTrade100 with id := 2, ticker := "B" }
            , { openTrade100 with id := 3, ticker := "C" }
            , { openTrade100 with id := 4, ticker := "D" }
            , { openTrade100 with id := 5, ticker := "E" } ]
          wallets := [] }
        (fun _ => "FinTech") "ZOMATO" "STRATEGY_MOMENTUM" =
      (false, "Strategy STRATEGY_MOMENTUM is Full (5/5)") := by
  refine ⟨by decide, ?_⟩
  have h := C9_capacity_rejects_first
    { trades :=
        [ { openTrade100 with id := 1, ticker := "A" }
        , { openTrade100 with id := 2, ticker := "B" }
        , { openTrade100 with id := 3, ticker := "C" }
        , { openTrade100 with id := 4, ticker := "D" }
        , { openTrade100 with id := 5, ticker := "E" } ]
      wallets := [] }
    (fun _ => "FinTech") "ZOMATO" "STRATEGY_MOMENTUM" (by decide)
  rw [h.1]
  decide

/-! ## Claim C8 — Exit Monitor decision and tie-breaks -/

/-- Claim C8: for an OPEN trade scanned with an available price, the
watchdog closes it as TARGET_HIT when `current_price ≥ target_price`
(the target comparison is evaluated first), as STOP_HIT when the target
check fails and `current_price ≤ stop_loss` (a price exactly at either
boundary resolves to that boundary's status), and does nothing
otherwise; in particular at stop 90 / target 120 a price of 121
resolves to TARGET_HIT, not STOP_HIT. -/
theorem C8_exit_monitor_decision (now : Nat) (db : DB) (t : Trade) (cp : ℚ)
    (hfirst : db.trades.find? (fun x => x.id == t.id) = some t) :
    (cp ≥ t.target_price →
      (watchdog_step now db t (some cp)).trades.find? (fun x => x.id == t.id) =
        some { t with status := Status.TARGET_HIT, exit_time := some now,
                      pnl := some ((cp - t.entry_price) * (t.quantity : ℚ)) }) ∧
    (¬ cp ≥ t.target_price → cp ≤ t.stop_loss →
      (watchdog_step now db t (some cp)).trades.find? (fun x => x.id == t.id) =
        some { t with status := Status.STOP_HIT, exit_time := some now,
                      pnl := some ((cp - t.entry_price) * (t.quantity : ℚ)) }) ∧
    (¬ cp ≥ t.target_price → ¬ cp ≤ t.stop_loss →
      watchdog_step now db t (some cp) = db) ∧
    exit_decision 121 120 90 = some Status.TARGET_HIT ∧
    exit_decision 121 120 90 ≠ some Status.STOP_HIT := by
  refine ⟨?_, ?_, ?_, by decide, by decide⟩
  · intro htgt
    simp only [watchdog_step, exit_decision, if_pos htgt, update_trade_status]
    exact find?_updateFirst_id _ t _ rfl hfirst
  · intro htgt hstop
    simp only [watchdog_step, exit_decision, if_neg htgt, if_pos hstop,
      update_trade_status]
    exact find?_updateFirst_id _ t _ rfl hfirst
  · intro htgt hstop
    simp only [watchdog_step, exit_decision, if_neg htgt, if_neg hstop]

/-- Claim C8 witness: the momentum position (entry 100, target 120,
stop 90, 150 shares) scanned at 121 is closed as TARGET_HIT with pnl
21 × 150 = 3150. -/
theorem C8_exit_monitor_witness :
    (121 : ℚ) ≥ openTrade100.target_price ∧
    (watchdog_step 5 dbOpen100 openTrade100 (some 121)).trades.find?
        (fun x => x.id == openTrade100.id) =
      some { openTrade100 with status := Status.TARGET_HIT, exit_time := some 5,
                               pnl := some 3150 } := by
  refine ⟨by decide, ?_⟩
  have h := (C8_exit_monitor_decision 5 dbOpen100 openTrade100 121 (by decide)).1
    (by decide)
  rw [h]
  decide

/-! ## Claim C2 — closing an already-terminal trade

The claim (with the spec) requires the close write to be conditioned on
the trade still being OPEN, so that a second close is a no-op reporting
"not found".  `update_trade_status` filters by `Trade.id` alone, so it
rewrites status, exit_time and pnl of a trade that has already left
OPEN. -/

/-- A trade already closed as TARGET_HIT with pnl 200 booked. -/
def closedTrade : Trade :=
  { id := 1
    ticker := "TCS"
    signal := "BUY"
    entry_price := 100
    target_price := 120
    stop_loss := 90
    quantity := 10
    status := Status.TARGET_HIT
    entry_time := 0
    exit_time := some 3
    pnl := some 200
    reasoning := ""
    strategy_name := "STRATEGY_MOMENTUM"
    confidence := 0 }

def dbClosed : DB :=
  { trades := [closedTrade]
    wallets := [ { strategy_name := "STRATEGY_MOMENTUM", balance := 101200 } ] }

/-- Claim C2 is violated by the code: invoking the close operation on
the already-terminal trade is NOT a no-op — it overwrites status,
exit_time and the booked pnl (200 becomes −500) — and a watchdog pass
holding a stale OPEN snapshot of the same row (a scan that started
before the close write became visible) re-closes it again, overwriting
pnl with 210.  Nothing reports "not found". -/
theorem C2_terminal_close_overwrites :
    closedTrade.status = Status.TARGET_HIT ∧
    (update_trade_status 9 dbClosed 1 Status.STOP_HIT 50 (-500)).trades =
      [{ closedTrade with status := Status.STOP_HIT, exit_time := some 9,
                          pnl := some (-500) }] ∧
    update_trade_status 9 dbClosed 1 Status.STOP_HIT 50 (-500) ≠ dbClosed ∧
    ((watchdog_step 9 dbClosed
        { closedTrade with status := Status.OPEN, exit_time := none, pnl := none }
        (some 121)).trades.map Trade.pnl) = [some 210] := by
  decide

/-! ## Claim C3 — wallet conservation across open and close

The executor's open path debits the owning strategy's wallet, but the
Exit Monitor's close path calls `update_balance(cash_back)` WITHOUT a
strategy argument, so the credit goes to the default `"MASTER"` wallet
— a row `init_db` never seeds — and therefore to no wallet at all.  The
conserved quantity drops by the whole notional on every close. -/

/-- The store after opening 200 shares of TCS @ 100 (stop 90, target
120) for the momentum strategy on the seeded store. -/
def c3_db_open : DB :=
  (execute_trade 0 1 true seededDB "TCS" "STRATEGY_MOMENTUM" "BUY" 100 5 "r" 80).1

/-- The store after the Exit Monitor then scans with a live price of
120 (target hit). -/
def c3_db_closed : DB := run_watchdog 1 (fun _ => some 120) c3_db_open

/-- Claim C3 is violated by the code: the open leg preserves
`sum(balances) + sum(open cost basis)` (300,000 before and after), but
the close leg credits no wallet — the owning strategy's balance stays
at 80,000 and the conserved sum drops to 280,000 instead of the
300,000 + 4,000 realized pnl the claim requires. -/
theorem C3_close_credits_no_wallet :
    total_wallet_balance seededDB + open_cost_basis seededDB = 300000 ∧
    total_wallet_balance c3_db_open + open_cost_basis c3_db_open = 300000 ∧
    c3_db_closed.trades.map Trade.status = [Status.TARGET_HIT] ∧
    c3_db_closed.trades.map Trade.pnl = [some 4000] ∧
    get_current_balance c3_db_closed "STRATEGY_MOMENTUM" = 80000 ∧
    total_wallet_balance c3_db_closed + open_cost_basis c3_db_closed = 280000 ∧
    (280000 : ℚ) ≠ 300000 + 4000 := by
  decide

/-! ## Claim C4 — the debit and the trade-row write are not atomic

`execute_trade` debits the wallet first and then calls `log_trade`,
which swallows any database failure inside its own `try/except`;
`execute_trade` still returns the positive quantity.  A failed row
write therefore leaves the wallet debited with no Trade row, reported
as success. -/

/-- Claim C4 is violated by the code: in the execution where the trade
row insert fails (`dbOk = false`), the opened quantity 200 is still
returned as success, no Trade row exists, and the momentum wallet has
been debited from 100,000 to 80,000 — partial state retained and not
reported as failure. -/
theorem C4_debit_survives_failed_row_write :
    (execute_trade 0 1 false seededDB "TCS" "STRATEGY_MOMENTUM" "BUY" 100 5 "r" 80).2
      = 200 ∧
    (execute_trade 0 1 false seededDB "TCS" "STRATEGY_MOMENTUM" "BUY" 100 5 "r" 80).1.trades
      = [] ∧
    get_current_balance
      (execute_trade 0 1 false seededDB "TCS" "STRATEGY_MOMENTUM" "BUY" 100 5 "r" 80).1
      "STRATEGY_MOMENTUM" = 80000 ∧
    get_current_balance seededDB "STRATEGY_MOMENTUM" = 100000 := by
  decide

end PositionRiskLedger
